import Mathlib

/-!
Verification of the trade-execution core of the Kyzlo V1 Jupiter DEX engine.

The development shallowly embeds the relevant Python source:
  * `src/otq/engines/execution/solana_client.py`   (confirm-or-reconcile executor)
  * `src/otq/engines/execution/adapters/jupiter_adapter.py` (pair state machine,
    attempt ladder, gating)
  * `src/otq/engines/jupiter_dex_engine_v1_lite.py` (tick scheduler, lite executor)

Conventions of the embedding:
  * Python floats are modelled as rationals (`ℚ`); the claims under study are
    about sign/ordering comparisons, not float rounding.
  * `datetime` timestamps are rationals (seconds since an arbitrary epoch);
    `datetime.now()` is passed explicitly as a `now : ℚ` argument.
  * Network and chain I/O is an explicit environment (oracle functions/records).
  * A raised Python exception is `Except.error`; attribute lookups that can
    fail (missing enum member / dataclass field) go through explicit
    lookup functions returning `Except`.
  * Logging calls are not modelled, with one caveat recorded where relevant:
    the `RECONCILE_DELTAS` log line in `execute_with_reconcile` uses the
    f-string format spec `{token_delta:.6f if token_delta else 'None'}`,
    which is an invalid format specifier and raises at runtime whenever the
    reconciliation branch is reached.  The data flow modelled here is the one
    the surrounding code implements (and the author intended); the divergence
    is noted in the results where it matters.
-/

-- Batteries marks the rational arithmetic operations `@[irreducible]`,
-- which blocks `decide` on concrete runs of the embedded code; restore the
-- default reducibility for this file.
attribute [local semireducible] Rat.mul Rat.add Rat.sub Rat.inv

/-- Python runtime errors that the embedded code can raise. -/
inductive PyErr where
  | attributeError (name : String)
  | valueError (msg : String)
  deriving DecidableEq, Repr

/-- Helper `listStarts sub s`: does `s` start with `sub`? (helper for substring tests). -/
def listStarts : List Char → List Char → Bool
  | [], _ => true
  | _ :: _, [] => false
  | a :: as, b :: bs => a = b && listStarts as bs

/-- Helper `listOccurs sub s`: does `sub` occur inside `s`? (Python `sub in s`). -/
def listOccurs (sub : List Char) : List Char → Bool
  | [] => listStarts sub []
  | s :: rest => listStarts sub (s :: rest) || listOccurs sub rest

/-- Python `str.lower()` restricted to ASCII (all error strings compared are ASCII). -/
def pyLower (s : String) : List Char := s.data.map Char.toLower

/-- Python `sub in msg.lower()`. -/
def pyIn (sub : String) (msgLower : List Char) : Bool := listOccurs sub.data msgLower

/-- Python `abs()` on a float, in an executable form (equal to `|q|`,
see `pyAbs_eq_abs`). -/
def pyAbs (q : ℚ) : ℚ := if q < 0 then -q else q

/-! ## solana_client.py -/

/-- Embedding of `TxOutcome` enum (solana_client.py). -/
inductive TxOutcome where
  | confirmed
  | finalized
  | failedVerified
  | timeoutUnknown
  | landedUnconfirmed
  | signFailed
  | deserializeFailed
  | sendFailed
  deriving DecidableEq, Repr

/-- Embedding of `TxFailureReason` enum (solana_client.py). -/
inductive TxFailureReason where
  | blockhashExpired
  | simulationFailed
  | insufficientFunds
  | slippageExceeded
  | programError
  | networkError
  | timeout
  | unknown
  deriving DecidableEq, Repr

/-- Embedding of `TxResult.is_success` (solana_client.py): outcome in (CONFIRMED, FINALIZED). -/
def TxOutcome.is_success : TxOutcome → Bool
  | .confirmed => true
  | .finalized => true
  | _ => false

/-- Embedding of `TxResult.is_safe_to_retry` (solana_client.py). -/
def TxOutcome.is_safe_to_retry : TxOutcome → Bool
  | .failedVerified => true
  | .signFailed => true
  | .deserializeFailed => true
  | .sendFailed => true
  | _ => false

/-- Embedding of `TxResult.needs_reconciliation` (solana_client.py). -/
def TxOutcome.needs_reconciliation : TxOutcome → Bool
  | .timeoutUnknown => true
  | .landedUnconfirmed => true
  | _ => false

/-- Embedding of `TxResult` dataclass (solana_client.py); the timing fields carry no logic. -/
structure TxResult where
  outcome : TxOutcome
  signature : Option String := none
  failure_reason : Option TxFailureReason := none
  error_message : Option String := none
  balance_before : Option ℚ := none
  balance_after : Option ℚ := none
  balance_delta : Option ℚ := none
  deriving DecidableEq, Repr

/-- Embedding of `InflightIntent` dataclass (solana_client.py). -/
structure InflightIntent where
  intent_id : String
  signature : Option String
  pair : String
  side : String
  amount_in : ℤ
  expected_delta : ℚ
  pre_balance_token : Option ℚ := none
  pre_balance_usdc : Option ℚ := none
  post_balance_token : Option ℚ := none
  post_balance_usdc : Option ℚ := none
  outcome : Option String := none
  deriving DecidableEq, Repr

/-- Embedding of `InflightIntent.token_delta` (solana_client.py). -/
def InflightIntent.token_delta (i : InflightIntent) : Option ℚ :=
  match i.pre_balance_token, i.post_balance_token with
  | some pre, some post => some (post - pre)
  | _, _ => none

/-- Embedding of `InflightIntent.usdc_delta` (solana_client.py). -/
def InflightIntent.usdc_delta (i : InflightIntent) : Option ℚ :=
  match i.pre_balance_usdc, i.post_balance_usdc with
  | some pre, some post => some (post - pre)
  | _, _ => none

/-- Embedding of `InflightIntent.matches_expected_deltas` (solana_client.py, lines 186-219).
Returns `False` when either delta is unavailable; otherwise checks the
direction and magnitude rules for the side (`"SELL"` vs. everything else). -/
def InflightIntent.matches_expected_deltas (i : InflightIntent)
    (tolerance_pct : ℚ := 1/10) : Bool :=
  match i.token_delta, i.usdc_delta with
  | some token_d, some usdc_d =>
    let expected_abs : ℚ := pyAbs i.expected_delta
    let tolerance : ℚ := expected_abs * tolerance_pct
    if i.side = "SELL" then
      (decide (token_d < 0) && decide (pyAbs token_d ≥ expected_abs - tolerance))
        && decide (usdc_d > 0)
    else
      (decide (token_d > 0) && decide (token_d ≥ expected_abs - tolerance))
        && decide (usdc_d < 0)
  | _, _ => false

/-- The default `tolerance_pct` of `matches_expected_deltas` and the default
`reconcile_tolerance_pct` of `SolanaClient.__init__` (both `0.10`). -/
def defaultReconcileTolerancePct : ℚ := 1/10

/-- Embedding of `SolanaClient._classify_error` (solana_client.py). -/
def classify_error (error_msg : String) : TxFailureReason :=
  let el := pyLower error_msg
  if pyIn "blockhash" el then .blockhashExpired
  else if pyIn "simulation" el then .simulationFailed
  else if pyIn "insufficient" el || pyIn "not enough" el then .insufficientFunds
  else if pyIn "slippage" el || pyIn "exceeds" el then .slippageExceeded
  else if pyIn "program" el then .programError
  else if pyIn "timeout" el then .timeout
  else if pyIn "connection" el || pyIn "network" el then .networkError
  else .unknown

/-- One response of `get_signature_status` (the dict it builds when the RPC
returns a status for the signature; `None` responses are `Option.none` in the
oracle). -/
structure SigStatus where
  confirmed : Bool
  finalized : Bool
  error : Option String
  deriving DecidableEq, Repr

/-- Chain/RPC environment for one `SolanaClient.execute` call:
how deserialisation, signing and sending behave, and what each successive
signature-status poll returns.  `pollBudget` is the number of poll iterations
that fit inside `confirm_timeout` (the `elapsed > self.confirm_timeout` check). -/
inductive SendRes where
  | gotSig (sig : String)
  | noValue
  | raised (msg : String)
  deriving DecidableEq, Repr

structure ExecEnv where
  deserializeOk : Bool
  signOk : Bool
  send : SendRes
  pollBudget : ℕ
  polls : ℕ → Option SigStatus

/-- Embedding of `SolanaClient._wait_for_confirmation` (solana_client.py, lines 485-547):
poll until timeout; a status carrying an error is a verified failure; a
`finalized`/`confirmed` status without error is success; otherwise keep
polling. -/
def wait_for_confirmation (sig : String) (polls : ℕ → Option SigStatus) :
    ℕ → ℕ → TxResult
  | 0, _ =>
    { outcome := .timeoutUnknown, signature := some sig,
      failure_reason := some .timeout,
      error_message := some "confirmation_timeout" }
  | budget + 1, idx =>
    match polls idx with
    | none => wait_for_confirmation sig polls budget (idx + 1)
    | some st =>
      match st.error with
      | some msg =>
        { outcome := .failedVerified, signature := some sig,
          failure_reason := some (classify_error msg), error_message := some msg }
      | none =>
        if st.finalized then { outcome := .finalized, signature := some sig }
        else if st.confirmed then { outcome := .confirmed, signature := some sig }
        else wait_for_confirmation sig polls budget (idx + 1)

/-- Embedding of `SolanaClient.execute` (solana_client.py, lines 417-483): deserialize,
sign, send, then wait for confirmation. -/
def SolanaClient.execute (env : ExecEnv) : TxResult :=
  if ¬env.deserializeOk then
    { outcome := .deserializeFailed, error_message := some "deserialize" }
  else if ¬env.signOk then
    { outcome := .signFailed, error_message := some "sign" }
  else
    match env.send with
    | .raised msg =>
      { outcome := .failedVerified, failure_reason := some (classify_error msg),
        error_message := some msg }
    | .noValue =>
      { outcome := .sendFailed, error_message := some "no_signature_returned" }
    | .gotSig sig => wait_for_confirmation sig env.polls env.pollBudget 0

/-- Embedding of `TxFailureReason` enum `.value` strings (solana_client.py). -/
def TxFailureReason.value : TxFailureReason → String
  | .blockhashExpired => "blockhash_expired"
  | .simulationFailed => "simulation_failed"
  | .insufficientFunds => "insufficient_funds"
  | .slippageExceeded => "slippage_exceeded"
  | .programError => "program_error"
  | .networkError => "network_error"
  | .timeout => "timeout"
  | .unknown => "unknown"

/-- Environment of one `execute_with_reconcile` call: the pre-balance
snapshots (`get_token_balance`/`get_usdc_balance`, `none` on fetch error),
the chain environment for `execute`, and the post-balance snapshots taken
in the reconciliation step. -/
structure ReconcileEnv where
  preTok : Option ℚ
  preUsdc : Option ℚ
  exec : ExecEnv
  postTok : Option ℚ
  postUsdc : Option ℚ

/-- Embedding of `SolanaClient.execute_with_reconcile` (solana_client.py, lines 553-715).
Step A snapshots pre-balances into an `InflightIntent`; step B returns
directly on definite outcomes; step C, on `TIMEOUT_UNKNOWN`, snapshots the
post-balances and upgrades to `LANDED_UNCONFIRMED` exactly when
`matches_expected_deltas` holds, otherwise downgrades to `FAILED_VERIFIED`.
Returns the `TxResult` together with the recorded intent. -/
def execute_with_reconcile (tolerance_pct : ℚ) (intent_id pair side : String)
    (expected_delta : ℚ) (env : ReconcileEnv) : TxResult × InflightIntent :=
  let intent : InflightIntent :=
    { intent_id := intent_id, signature := none, pair := pair, side := side,
      amount_in := 0, expected_delta := expected_delta,
      pre_balance_token := env.preTok, pre_balance_usdc := env.preUsdc }
  let result := SolanaClient.execute env.exec
  let result := { result with balance_before := env.preTok }
  let intent := { intent with signature := result.signature }
  match result.signature with
  | none => (result, { intent with outcome := some "no_signature" })
  | some _ =>
    if result.outcome.is_success then
      (result, { intent with outcome := some "confirmed" })
    else if result.outcome.is_safe_to_retry then
      let reasonStr := (result.failure_reason.map TxFailureReason.value).getD "unknown"
      (result, { intent with outcome := some ("failed:" ++ reasonStr) })
    else if result.outcome = .timeoutUnknown then
      let intent := { intent with post_balance_token := env.postTok,
                                  post_balance_usdc := env.postUsdc }
      let result := { result with balance_after := env.postTok,
                                  balance_delta := intent.token_delta }
      if intent.matches_expected_deltas tolerance_pct then
        ({ result with outcome := .landedUnconfirmed },
         { intent with outcome := some "reconciled_success" })
      else
        ({ result with outcome := .failedVerified, failure_reason := some .timeout },
         { intent with outcome := some "reconciled_failure" })
    else (result, intent)

/-! ## jupiter_adapter.py : configuration -/

/-- Embedding of `JupiterConfig` frozen dataclass (jupiter_adapter.py, lines 46-113),
with the source's default values.  Note: it has no `slippage_bps` field. -/
structure JupiterConfig where
  base_url : String := "https://quote-api.jup.ag/v6"
  http_timeout : ℚ := 30
  slippage_bps_attempt_1 : ℤ := 50
  slippage_bps_attempt_2 : ℤ := 50
  slippage_bps_attempt_3 : ℤ := 100
  slippage_bps_attempt_4 : ℤ := 150
  slippage_bps_max : ℤ := 200
  priority_fee_attempt_1 : ℤ := 0
  priority_fee_attempt_2 : ℤ := 0
  priority_fee_attempt_3 : ℤ := 50000
  priority_fee_attempt_4 : ℤ := 100000
  max_attempts : ℕ := 4
  attempt_delay_seconds : ℚ := 2
  max_quote_retries : ℕ := 3
  retry_delay_base : ℚ := 1
  failure_cooldown_seconds : ℚ := 120
  failure_threshold : ℕ := 4
  price_ttl_seconds : ℚ := 10
  max_price_impact_bps : ℤ := 100
  min_sol_reserve : ℚ := 1/10
  deriving DecidableEq, Repr

/-- Values a `JupiterConfig` attribute can hold (for the attribute-lookup
embedding of Python's `config.<name>`). -/
inductive ConfigVal where
  | str (v : String)
  | rat (v : ℚ)
  | int (v : ℤ)
  | nat (v : ℕ)
  deriving DecidableEq, Repr

/-- Python attribute access `config.<name>` on the frozen dataclass
`JupiterConfig`: exactly the declared fields resolve; any other name raises
`AttributeError`. -/
def JupiterConfig.getattr (c : JupiterConfig) : String → Except PyErr ConfigVal
  | "base_url" => .ok (.str c.base_url)
  | "http_timeout" => .ok (.rat c.http_timeout)
  | "slippage_bps_attempt_1" => .ok (.int c.slippage_bps_attempt_1)
  | "slippage_bps_attempt_2" => .ok (.int c.slippage_bps_attempt_2)
  | "slippage_bps_attempt_3" => .ok (.int c.slippage_bps_attempt_3)
  | "slippage_bps_attempt_4" => .ok (.int c.slippage_bps_attempt_4)
  | "slippage_bps_max" => .ok (.int c.slippage_bps_max)
  | "priority_fee_attempt_1" => .ok (.int c.priority_fee_attempt_1)
  | "priority_fee_attempt_2" => .ok (.int c.priority_fee_attempt_2)
  | "priority_fee_attempt_3" => .ok (.int c.priority_fee_attempt_3)
  | "priority_fee_attempt_4" => .ok (.int c.priority_fee_attempt_4)
  | "max_attempts" => .ok (.nat c.max_attempts)
  | "attempt_delay_seconds" => .ok (.rat c.attempt_delay_seconds)
  | "max_quote_retries" => .ok (.nat c.max_quote_retries)
  | "retry_delay_base" => .ok (.rat c.retry_delay_base)
  | "failure_cooldown_seconds" => .ok (.rat c.failure_cooldown_seconds)
  | "failure_threshold" => .ok (.nat c.failure_threshold)
  | "price_ttl_seconds" => .ok (.rat c.price_ttl_seconds)
  | "max_price_impact_bps" => .ok (.int c.max_price_impact_bps)
  | "min_sol_reserve" => .ok (.rat c.min_sol_reserve)
  | name => .error (.attributeError name)

/-- The attribute read performed by `JupiterAdapter.__init__` (line 355):
`logger.info(f"... slippage={config.slippage_bps}bps")` evaluates
`config.slippage_bps` before any trading can start. -/
def jupiterAdapterInitSlippageRead (c : JupiterConfig) : Except PyErr ConfigVal :=
  c.getattr "slippage_bps"

/-- The slippage resolution of `JupiterAdapter.get_quote` (lines 469-470):
`if slippage_bps is None: slippage_bps = self.config.slippage_bps`. -/
def get_quote_slippage (c : JupiterConfig) : Option ℤ → Except PyErr ConfigVal
  | some v => .ok (.int v)
  | none => c.getattr "slippage_bps"

/-- Embedding of `JupiterConfig.get_slippage_for_attempt` (jupiter_adapter.py, lines 92-101). -/
def JupiterConfig.get_slippage_for_attempt (c : JupiterConfig) (attempt : ℕ) : ℤ :=
  let slippages := [c.slippage_bps_attempt_1, c.slippage_bps_attempt_2,
                    c.slippage_bps_attempt_3, c.slippage_bps_attempt_4]
  let idx := min (attempt - 1) (slippages.length - 1)
  min (slippages.getD idx 0) c.slippage_bps_max

/-- Embedding of `JupiterConfig.get_priority_fee_for_attempt` (jupiter_adapter.py,
lines 103-113); `none` means "auto". -/
def JupiterConfig.get_priority_fee_for_attempt (c : JupiterConfig) (attempt : ℕ) :
    Option ℤ :=
  let fees := [c.priority_fee_attempt_1, c.priority_fee_attempt_2,
               c.priority_fee_attempt_3, c.priority_fee_attempt_4]
  let idx := min (attempt - 1) (fees.length - 1)
  let fee := fees.getD idx 0
  if fee > 0 then some fee else none

/-! ## jupiter_adapter.py : position state machine -/

/-- Embedding of `PositionState` enum (jupiter_adapter.py, lines 116-137): its only
members are `FLAT`, `OPEN`, `EXIT_ONLY`. -/
inductive PositionState where
  | FLAT
  | OPEN
  | EXIT_ONLY
  deriving DecidableEq, Repr

/-- Python attribute access `PositionState.<name>` on the enum class:
exactly the declared members resolve; any other name (in particular the
`ENTERING_INFLIGHT` and `EXITING_INFLIGHT` used at lines 432 and 245)
raises `AttributeError`. -/
def positionStateMember : String → Except PyErr PositionState
  | "FLAT" => .ok .FLAT
  | "OPEN" => .ok .OPEN
  | "EXIT_ONLY" => .ok .EXIT_ONLY
  | name => .error (.attributeError name)

/-- Embedding of `PairState` dataclass (jupiter_adapter.py, lines 140-177) with its
default field values. -/
structure PairState where
  pair : String
  position_state : PositionState := .FLAT
  entry_price : Option ℚ := none
  entry_time : Option ℚ := none
  size_base : Option ℚ := none
  inflight_buy_signature : Option String := none
  inflight_buy_intent_id : Option String := none
  inflight_sell_signature : Option String := none
  inflight_sell_intent_id : Option String := none
  buy_cooldown_until : Option ℚ := none
  sell_cooldown_until : Option ℚ := none
  buy_consecutive_failures : ℕ := 0
  sell_consecutive_failures : ℕ := 0
  current_buy_attempt : ℕ := 0
  current_sell_attempt : ℕ := 0
  last_entry_time : Option ℚ := none
  last_exit_time : Option ℚ := none
  deriving DecidableEq, Repr

/-- Embedding of `PairState.is_buy_in_cooldown` (jupiter_adapter.py, lines 179-183). -/
def PairState.is_buy_in_cooldown (s : PairState) (now : ℚ) : Bool :=
  match s.buy_cooldown_until with
  | none => false
  | some t => now < t

/-- Embedding of `PairState.is_sell_in_cooldown` (jupiter_adapter.py, lines 185-189). -/
def PairState.is_sell_in_cooldown (s : PairState) (now : ℚ) : Bool :=
  match s.sell_cooldown_until with
  | none => false
  | some t => now < t

/-- Embedding of `PairState.record_buy_failure` (jupiter_adapter.py, lines 191-202):
increment the consecutive-failure counter; once it reaches
`cooldown_threshold`, set the BUY cooldown to `now + cooldown_seconds` and
reset the ladder attempt counter. -/
def PairState.record_buy_failure (s : PairState) (cooldown_threshold : ℕ)
    (cooldown_seconds now : ℚ) : PairState :=
  let s := { s with buy_consecutive_failures := s.buy_consecutive_failures + 1 }
  if s.buy_consecutive_failures ≥ cooldown_threshold then
    { s with buy_cooldown_until := some (now + cooldown_seconds),
             current_buy_attempt := 0 }
  else s

/-- Embedding of `PairState.record_sell_failure` (jupiter_adapter.py, lines 204-215). -/
def PairState.record_sell_failure (s : PairState) (cooldown_threshold : ℕ)
    (cooldown_seconds now : ℚ) : PairState :=
  let s := { s with sell_consecutive_failures := s.sell_consecutive_failures + 1 }
  if s.sell_consecutive_failures ≥ cooldown_threshold then
    { s with sell_cooldown_until := some (now + cooldown_seconds),
             current_sell_attempt := 0 }
  else s

/-- Embedding of `PairState.reset_buy_failures` (jupiter_adapter.py, lines 217-221). -/
def PairState.reset_buy_failures (s : PairState) : PairState :=
  { s with buy_consecutive_failures := 0, buy_cooldown_until := none,
           current_buy_attempt := 0 }

/-- Embedding of `PairState.reset_sell_failures` (jupiter_adapter.py, lines 223-227). -/
def PairState.reset_sell_failures (s : PairState) : PairState :=
  { s with sell_consecutive_failures := 0, sell_cooldown_until := none,
           current_sell_attempt := 0 }

namespace JupiterAdapter

/-- Embedding of `JupiterAdapter.can_enter` (jupiter_adapter.py, lines 387-416).
`exit_only_mode` is the adapter's global `_exit_only_mode` flag. -/
def can_enter (exit_only_mode : Bool) (s : PairState) (now : ℚ) :
    Bool × Option String :=
  if exit_only_mode then (false, some "exit_only_mode")
  else if s.position_state = .OPEN then (false, some "position_open")
  else if s.position_state = .EXIT_ONLY then (false, some "pair_exit_only")
  else
    match s.inflight_buy_signature with
    | some sig => (false, some ("inflight_buy:" ++ sig))
    | none =>
      if s.is_buy_in_cooldown now then (false, some "buy_cooldown_until")
      else (true, none)

/-- Embedding of `JupiterAdapter.can_exit` (jupiter_adapter.py, lines 418-444).
After the `FLAT` early return, the source compares against
`PositionState.ENTERING_INFLIGHT`; the enum lookup is in the `Except`
monad because that member does not exist. -/
def can_exit (s : PairState) (now : ℚ) : Except PyErr (Bool × Option String) := do
  if s.position_state = .FLAT then return (false, some "no_position")
  let entering ← positionStateMember "ENTERING_INFLIGHT"
  if s.position_state = entering then return (false, some "still_entering")
  match s.inflight_sell_signature with
  | some sig => return (false, some ("inflight_sell:" ++ sig))
  | none =>
    if s.is_sell_in_cooldown now then return (false, some "sell_cooldown_until")
    else return (true, none)

end JupiterAdapter

deriving instance DecidableEq for Except

/-! ## jupiter_adapter.py : attempt ladder and trade execution -/

/-- Embedding of `TradeResult` dataclass (jupiter_adapter.py, lines 248-285). -/
structure TradeResult where
  outcome : String
  pair : String
  side : String
  signature : Option String := none
  price : Option ℚ := none
  size : Option ℚ := none
  error : Option String := none
  tx_result : Option TxResult := none
  attempt_number : ℕ := 1
  slippage_bps_used : ℤ := 0
  priority_fee_used : Option ℤ := none
  quote_in_amount : Option ℤ := none
  quote_out_amount : Option ℤ := none
  price_impact_bps : Option ℤ := none
  deriving DecidableEq, Repr

/-- Embedding of `TradeResult.success` property. -/
def TradeResult.success (r : TradeResult) : Bool := r.outcome = "SUCCESS"

/-- Embedding of `TradeResult.is_unknown` property. -/
def TradeResult.is_unknown (r : TradeResult) : Bool := r.outcome = "UNKNOWN"

/-- The fields of a Jupiter quote response that `execute_with_ladder` reads:
`inAmount`, `outAmount` and `priceImpactPct` (`quote.get("priceImpactPct", 0)`). -/
structure Quote where
  inAmount : ℤ
  outAmount : ℤ
  priceImpactPct : ℚ := 0
  deriving DecidableEq, Repr

/-- Python `int(x)` on a float: truncation toward zero. -/
def pyInt (q : ℚ) : ℤ := if q ≥ 0 then ⌊q⌋ else ⌈q⌉

/-- External behaviour of one ladder attempt: the result of `get_quote`
(`none` = quote failure), whether `get_swap_transaction` returned bytes,
and the chain environment seen by `execute_with_reconcile`. -/
structure AttemptEnv where
  quote : Option Quote
  swapTx : Option Unit
  reconcile : ReconcileEnv

/-- The two per-side inflight-signature assignments of `execute_with_ladder`
(`if side == "BUY": state.inflight_buy_signature = v else: state.inflight_sell_signature = v`). -/
def setInflightSig (side : String) (v : Option String) (s : PairState) : PairState :=
  if side = "BUY" then { s with inflight_buy_signature := v }
  else { s with inflight_sell_signature := v }

/-- Result of a full `execute_with_ladder` run, instrumented with the number
of loop-body iterations entered (`attemptsExecuted`) and the number of
`attempt += 1` statements executed (`attemptsConsumed`). -/
structure LadderOut where
  result : TradeResult
  state : PairState
  attemptsExecuted : ℕ
  attemptsConsumed : ℕ
  deriving Repr

namespace JupiterAdapter

/-- The `while attempt <= self.config.max_attempts` loop of
`JupiterAdapter.execute_with_ladder` (jupiter_adapter.py, lines 586-766),
with `fuel = max_attempts - attempt + 1` making the loop condition
structural.  `tolerance_pct` is `solana.reconcile_tolerance_pct`; the
intent id generated by the client is irrelevant to the result and fixed. -/
def ladder_loop (cfg : JupiterConfig) (tolerance_pct : ℚ) (pair side : String)
    (expected_delta : ℚ) (env : ℕ → AttemptEnv) (now : ℚ) :
    ℕ → ℕ → PairState → LadderOut
  | 0, _, s =>
    -- loop condition failed: all attempts exhausted (only reached via FAILURE)
    let s :=
      if side = "BUY" then
        let s := s.record_buy_failure cfg.failure_threshold
          cfg.failure_cooldown_seconds now
        { s with inflight_buy_signature := none }
      else
        let s := s.record_sell_failure cfg.failure_threshold
          cfg.failure_cooldown_seconds now
        { s with inflight_sell_signature := none }
    let res : TradeResult :=
      { outcome := "FAILURE", pair := pair, side := side,
        error := some "all_attempts_exhausted",
        attempt_number := cfg.max_attempts,
        slippage_bps_used := cfg.get_slippage_for_attempt cfg.max_attempts }
    { result := res, state := s, attemptsExecuted := 0, attemptsConsumed := 0 }
  | fuel + 1, attempt, s =>
    let slippage_bps := cfg.get_slippage_for_attempt attempt
    let priority_fee := cfg.get_priority_fee_for_attempt attempt
    let a := env attempt
    match a.quote with
    | none =>
      -- quote failure is definitive: consume attempt and continue
      let r := ladder_loop cfg tolerance_pct pair side expected_delta env now
        fuel (attempt + 1) s
      { r with attemptsExecuted := r.attemptsExecuted + 1,
               attemptsConsumed := r.attemptsConsumed + 1 }
    | some q =>
      let price_impact : ℚ := q.priceImpactPct * 100
      if price_impact > (cfg.max_price_impact_bps : ℚ) then
        let res : TradeResult :=
          { outcome := "FAILURE", pair := pair, side := side,
            error := some "price_impact", attempt_number := attempt,
            slippage_bps_used := slippage_bps,
            price_impact_bps := some (pyInt price_impact) }
        { result := res, state := s, attemptsExecuted := 1, attemptsConsumed := 0 }
      else
        match a.swapTx with
        | none =>
          -- swap build failure is definitive: consume attempt and continue
          let r := ladder_loop cfg tolerance_pct pair side expected_delta env now
            fuel (attempt + 1) s
          { r with attemptsExecuted := r.attemptsExecuted + 1,
                   attemptsConsumed := r.attemptsConsumed + 1 }
        | some _ =>
        -- set inflight BEFORE execute, then update it with the signature
        let s1 := setInflightSig side (some "pending") s
        let txr := (execute_with_reconcile tolerance_pct "intent" pair side
          expected_delta a.reconcile).1
        let s2 := match txr.signature with
          | some sig => setInflightSig side (some sig) s1
          | none => s1
        if txr.outcome.is_success then
          let res : TradeResult :=
            { outcome := "SUCCESS", pair := pair, side := side,
              signature := txr.signature, tx_result := some txr,
              attempt_number := attempt, slippage_bps_used := slippage_bps,
              priority_fee_used := priority_fee,
              quote_in_amount := some q.inAmount,
              quote_out_amount := some q.outAmount }
          { result := res, state := s2, attemptsExecuted := 1, attemptsConsumed := 0 }
        else if txr.outcome = .landedUnconfirmed then
          -- reconciliation shows the tx landed: treat as SUCCESS
          let res : TradeResult :=
            { outcome := "SUCCESS", pair := pair, side := side,
              signature := txr.signature, tx_result := some txr,
              attempt_number := attempt, slippage_bps_used := slippage_bps,
              priority_fee_used := priority_fee }
          { result := res, state := s2, attemptsExecuted := 1, attemptsConsumed := 0 }
        else if txr.outcome.is_safe_to_retry then
          -- definitive failure: clear inflight, consume attempt, continue
          let s3 := setInflightSig side none s2
          let r := ladder_loop cfg tolerance_pct pair side expected_delta env now
            fuel (attempt + 1) s3
          { r with attemptsExecuted := r.attemptsExecuted + 1,
                   attemptsConsumed := r.attemptsConsumed + 1 }
        else
          -- UNKNOWN: do not consume attempt, do not clear inflight
          let res : TradeResult :=
            { outcome := "UNKNOWN", pair := pair, side := side,
              signature := txr.signature, error := some "unknown_outcome",
              tx_result := some txr, attempt_number := attempt,
              slippage_bps_used := slippage_bps }
          { result := res, state := s2, attemptsExecuted := 1, attemptsConsumed := 0 }

/-- Embedding of `JupiterAdapter.execute_with_ladder` (jupiter_adapter.py, lines 586-766):
run the attempt ladder starting from `attempt = 1`. -/
def execute_with_ladder (cfg : JupiterConfig) (tolerance_pct : ℚ)
    (pair side : String) (expected_delta : ℚ) (env : ℕ → AttemptEnv)
    (now : ℚ) (s : PairState) : LadderOut :=
  ladder_loop cfg tolerance_pct pair side expected_delta env now
    cfg.max_attempts 1 s

end JupiterAdapter

/-! ## jupiter_adapter.py : token registry, enter / exit, resolve passes -/

/-- Embedding of `TokenInfo` frozen dataclass (jupiter_adapter.py, lines 292-297). -/
structure TokenInfo where
  symbol : String
  mint : String
  decimals : ℕ
  deriving DecidableEq, Repr

/-- The `TOKENS` registry (jupiter_adapter.py, lines 301-311). -/
def TOKENS : List (String × TokenInfo) :=
  [("SOL", ⟨"SOL", "So11111111111111111111111111111111111111112", 9⟩),
   ("USDC", ⟨"USDC", "EPjFWdd5AufqSSqeM2qN1xzybapC8G4wEGGkZwyTDt1v", 6⟩),
   ("USDT", ⟨"USDT", "Es9vMFrzaCERmJfrF4H2FYD4KCoNkY11McCe8BenwNYB", 6⟩),
   ("JUP", ⟨"JUP", "JUPyiwrYJFskUPiHa7hkeR8VUtAeFoSYbKedZNsDvCN", 6⟩),
   ("BONK", ⟨"BONK", "DezXAZ8z7PnrnRJjz3wXBoRgixCa6xjnB7YaB1pPB263", 5⟩),
   ("WIF", ⟨"WIF", "EKpQGSJtjMFqKZ9KQanSqYXRcF8fBopzLHYxdM65zcjm", 6⟩),
   ("TRUMP", ⟨"TRUMP", "6p6xgHyF7AeE6TZkSmFsko444wqoP15icUSqi2jfGiPN", 6⟩),
   ("POPCAT", ⟨"POPCAT", "7GCihgDB8fe6KNjn2MYtkzZcRjQy3t9GHdC8uHYmW2hr", 9⟩),
   ("MEW", ⟨"MEW", "MEW1gQWJ3nEXg2qgERiKu7FAFj79PHvQVREQUzScPP5", 5⟩)]

/-- Embedding of `get_token` (jupiter_adapter.py, lines 314-318): raises `ValueError` for
an unknown symbol. -/
def get_token (symbol : String) : Except PyErr TokenInfo :=
  match TOKENS.lookup symbol with
  | some t => .ok t
  | none => .error (.valueError ("Unknown token: " ++ symbol))

/-- Python `s.split(sep)` for a one-character separator, on the character
list of the string. -/
def pySplitChar (sep : Char) : List Char → List (List Char)
  | [] => [[]]
  | c :: rest =>
    let r := pySplitChar sep rest
    if c = sep then [] :: r
    else
      match r with
      | h :: t => (c :: h) :: t
      | [] => [[c]]

/-- Python `s.split(sep)` returning strings. -/
def pySplit (sep : Char) (s : String) : List String :=
  (pySplitChar sep s.data).map List.asString

/-- Embedding of `parse_pair` (jupiter_adapter.py, lines 321-324): `pair.split("/")` must
unpack into exactly two symbols, each of which must be registered. -/
def parse_pair (pair : String) : Except PyErr (TokenInfo × TokenInfo) :=
  match pySplit '/' pair with
  | [base_sym, quote_sym] => do
    let b ← get_token base_sym
    let q ← get_token quote_sym
    return (b, q)
  | _ => .error (.valueError "unpack")

namespace JupiterAdapter

/-- Embedding of `JupiterAdapter.enter` (jupiter_adapter.py, lines 772-852): gate on
`can_enter`, run the ladder with `side="BUY"` and
`expected_delta = size_base = notional / price`, then apply the state
transition for the outcome (`SUCCESS` opens the position; `FAILURE` and
`UNKNOWN` leave the state as the ladder left it). -/
def enter (cfg : JupiterConfig) (exit_only_mode : Bool) (pair : String)
    (price notional : ℚ) (env : ℕ → AttemptEnv) (tolerance_pct now : ℚ)
    (s : PairState) : Except PyErr (TradeResult × PairState) := do
  let (can, reason) := can_enter exit_only_mode s now
  if ¬can then
    return ({ outcome := "FAILURE", pair := pair, side := "BUY",
              error := reason }, s)
  let _tokens ← parse_pair pair
  let size_base := notional / price
  let L := execute_with_ladder cfg tolerance_pct pair "BUY" size_base env now s
  let result := L.result
  let s := L.state
  if result.outcome = "SUCCESS" then
    let s := { s with position_state := .OPEN, entry_price := some price,
                      entry_time := some now, size_base := some size_base,
                      last_entry_time := some now }
    let s := s.reset_buy_failures
    let s := { s with inflight_buy_signature := none,
                      inflight_buy_intent_id := none }
    return ({ result with price := some price, size := some size_base }, s)
  else
    return (result, s)

/-- Embedding of `JupiterAdapter.exit` (jupiter_adapter.py, lines 854-948): gate on
`can_exit` (which can raise, see `can_exit`), run the ladder with
`side="SELL"` and `expected_delta = -size_base`, then apply the state
transition for the outcome.  The PnL computed from
`entry_price = state.entry_price or price` is only logged. -/
def exit (cfg : JupiterConfig) (pair : String) (price : ℚ) (_reason : String)
    (env : ℕ → AttemptEnv) (tolerance_pct now : ℚ) (s : PairState) :
    Except PyErr (TradeResult × PairState) := do
  let (can, gate_reason) ← can_exit s now
  if ¬can then
    return ({ outcome := "FAILURE", pair := pair, side := "SELL",
              error := gate_reason }, s)
  let _tokens ← parse_pair pair
  let size_base := s.size_base.getD 0
  let L := execute_with_ladder cfg tolerance_pct pair "SELL" (-size_base) env now s
  let result := L.result
  let s := L.state
  if result.outcome = "SUCCESS" then
    let s := { s with position_state := .FLAT, entry_price := none,
                      entry_time := none, size_base := none,
                      last_exit_time := some now }
    let s := s.reset_sell_failures
    let s := { s with inflight_sell_signature := none,
                      inflight_sell_intent_id := none }
    return ({ result with price := some price, size := some size_base }, s)
  else if result.outcome = "FAILURE" then
    if s.sell_consecutive_failures ≥ cfg.failure_threshold then
      return (result, { s with position_state := .EXIT_ONLY })
    else
      return (result, s)
  else
    return (result, s)

/-- The per-pair body of `JupiterAdapter.resolve_unknown_exits`
(jupiter_adapter.py, lines 954-1001).  `oracle` is
`solana.get_signature_status`; returns the updated state and the
resolution appended for the pair, if any. -/
def resolve_unknown_exits_one (oracle : String → Option SigStatus) (now : ℚ)
    (s : PairState) : PairState × Option String :=
  match s.inflight_sell_signature with
  | none => (s, none)
  | some sig =>
    if sig = "pending" then (s, none)
    else
      match oracle sig with
      | none => (s, none)
      | some st =>
        if st.confirmed || st.finalized then
          let s := { s with position_state := .FLAT, entry_price := none,
                            entry_time := none, size_base := none,
                            last_exit_time := some now,
                            inflight_sell_signature := none }
          (s.reset_sell_failures, some "SUCCESS")
        else if st.error.isSome then
          ({ s with inflight_sell_signature := none }, some "FAILURE")
        else (s, none)

/-- The per-pair body of `JupiterAdapter.resolve_unknown_entries`
(jupiter_adapter.py, lines 1003-1040).  On a late confirmation the pair is
marked `OPEN` and the inflight signature cleared; the source leaves
`entry_price` and `size_base` untouched (its own log: "position size
unknown, needs balance check"). -/
def resolve_unknown_entries_one (oracle : String → Option SigStatus)
    (s : PairState) : PairState × Option String :=
  match s.inflight_buy_signature with
  | none => (s, none)
  | some sig =>
    if sig = "pending" then (s, none)
    else
      match oracle sig with
      | none => (s, none)
      | some st =>
        if st.confirmed || st.finalized then
          ({ s with position_state := .OPEN,
                    inflight_buy_signature := none }, some "SUCCESS")
        else if st.error.isSome then
          ({ s with inflight_buy_signature := none }, some "FAILURE")
        else (s, none)

/-- Embedding of `JupiterAdapter.resolve_unknown_entries` over the `_pair_states` table. -/
def resolve_unknown_entries (oracle : String → Option SigStatus)
    (states : List PairState) : List PairState :=
  states.map (fun s => (resolve_unknown_entries_one oracle s).1)

/-- Embedding of `JupiterAdapter.resolve_unknown_exits` over the `_pair_states` table. -/
def resolve_unknown_exits (oracle : String → Option SigStatus) (now : ℚ)
    (states : List PairState) : List PairState :=
  states.map (fun s => (resolve_unknown_exits_one oracle now s).1)

end JupiterAdapter

/-! ## jupiter_dex_engine_v1_lite.py -/

namespace Engine

/-- Embedding of `EngineState` enum (jupiter_dex_engine_v1_lite.py, lines 919-934). -/
inductive EngineState where
  | RUNNING
  | PAUSED_PRICE_FEED
  | PAUSED_SOL_RESERVE
  | PAUSED_EXEC_ERRORS
  | STOPPED
  deriving DecidableEq, Repr

/-- The engine's `TxResult` enum (jupiter_dex_engine_v1_lite.py,
lines 714-721) - distinct from the solana_client `TxResult` dataclass. -/
inductive TxStatus where
  | SUCCESS
  | FAILED
  | TIMEOUT
  | BLOCKHASH_EXPIRED
  | SIMULATION_FAILED
  deriving DecidableEq, Repr

/-- Embedding of `.value` strings of the engine `TxResult` enum. -/
def TxStatus.value : TxStatus → String
  | .SUCCESS => "success"
  | .FAILED => "failed"
  | .TIMEOUT => "timeout"
  | .BLOCKHASH_EXPIRED => "blockhash_expired"
  | .SIMULATION_FAILED => "simulation_failed"

/-- Embedding of `ExecutionResult` dataclass (jupiter_dex_engine_v1_lite.py, lines 723-728). -/
structure ExecutionResult where
  status : TxStatus
  signature : String
  error : Option String := none
  deriving DecidableEq, Repr

/-- The engine's `PairState` dataclass (jupiter_dex_engine_v1_lite.py,
lines 937-949): a single boolean inflight flag per pair. -/
structure PairState where
  pair : String
  inflight : Bool := false
  last_trade_time : Option ℚ := none
  deriving DecidableEq, Repr

/-- External behaviour of one `_execute_entry` call: the config `dry_run`
flag, the Jupiter quote and swap-build results, and what
`tx_executor.execute` returns if it is reached. -/
structure EntryEnv where
  dryRun : Bool
  quote : Option Quote
  swapOk : Bool
  execResult : ExecutionResult
  deriving Repr

/-- Observable outcome of `_execute_entry`: the `success`/`error`/`tx_status`
entries of the result dict, whether `strategy.open_position` was called, and
the pair state after the `finally` block ran. -/
structure EntryOut where
  success : Bool
  error : Option String := none
  tx_status : Option String := none
  openedPosition : Bool := false
  state : PairState
  deriving DecidableEq, Repr

/-- Embedding of `JupiterDexEngine._execute_entry` (jupiter_dex_engine_v1_lite.py,
lines 1278-1373).  The inflight flag is set on entry and the `finally`
block clears it and stamps `last_trade_time` on every path out - including
the `TIMEOUT` (unknown) outcome. -/
def execute_entry (env : EntryEnv) (ps : PairState) (now : ℚ) : EntryOut :=
  let ps := { ps with inflight := true }
  -- the `finally` block, applied to every return path
  let fin := fun (s : PairState) => { s with inflight := false,
                                             last_trade_time := some now }
  if env.dryRun then
    { success := true, openedPosition := true, state := fin ps }
  else
    match env.quote with
    | none => { success := false, error := some "quote_failed", state := fin ps }
    | some _ =>
      if ¬env.swapOk then
        { success := false, error := some "swap_tx_failed", state := fin ps }
      else if env.execResult.status = .SUCCESS then
        { success := true, tx_status := some env.execResult.status.value,
          openedPosition := true, state := fin ps }
      else
        { success := false, tx_status := some env.execResult.status.value,
          state := fin ps }

/-- A trade dispatched by `tick`: an exit (`_execute_exit`) or an entry
(`_execute_entry`) for a pair. -/
inductive TradeAction where
  | exitTrade (pair : String)
  | entryTrade (pair : String)
  deriving DecidableEq, Repr

def TradeAction.isExit : TradeAction → Bool
  | .exitTrade _ => true
  | _ => false

def TradeAction.isEntry : TradeAction → Bool
  | .entryTrade _ => true
  | _ => false

/-- External behaviour of one `tick` (jupiter_dex_engine_v1_lite.py,
lines 1128-1276): the engine state, the SOL-reserve check, the price
update (`all_valid` and the per-pair prices it cached), the open positions
held by the strategy (in iteration order), the per-pair inflight flags,
and the strategy's exit-reason / can-enter / entry-signal responses. -/
structure TickEnv where
  state : EngineState
  solOk : Bool
  pricesAllValid : Bool
  price : String → Option ℚ
  positions : List String
  inflight : String → Bool
  exitReason : String → ℚ → Option String
  canEnter : String → Bool
  signalLong : String → Bool
  pairs : List String

/-- The trades dispatched by one `tick`, in dispatch order: after the
paused / SOL-reserve / price-validity gates, the exits loop over
`strategy.positions` runs to completion before the entries loop over
`cfg.pairs` starts. -/
def tick (env : TickEnv) : List TradeAction :=
  if env.state ≠ .RUNNING then []
  else if ¬env.solOk then []
  else if ¬env.pricesAllValid then []
  else
    let exits := env.positions.filterMap fun p =>
      if env.inflight p then none
      else
        match env.price p with
        | none => none
        | some pr =>
          match env.exitReason p pr with
          | none => none
          | some _ => some (TradeAction.exitTrade p)
    let entries := env.pairs.filterMap fun p =>
      if env.inflight p then none
      else if ¬env.canEnter p then none
      else
        match env.price p with
        | none => none
        | some _ =>
          if env.signalLong p then some (TradeAction.entryTrade p) else none
    exits ++ entries

end Engine

/-! ## Derived notions and concrete environments used by the theorems -/

/-- A positive on-chain confirmation inside the poll window: some status
poll returned `confirmed` or `finalized` with no error. -/
def positiveConfirmation (e : ExecEnv) : Prop :=
  ∃ j st, j < e.pollBudget ∧ e.polls j = some st ∧ st.error = none ∧
    (st.finalized = true ∨ st.confirmed = true)

/-- Whether one ladder attempt with external behaviour `a` is a definite
failure that consumes the attempt (quote failure, swap-build failure, or a
verified transaction failure); price-impact aborts, successes and unknown
outcomes do not consume. -/
def attemptConsumes (tolerance_pct : ℚ) (maxImpactBps : ℤ) (pair side : String)
    (expected_delta : ℚ) (a : AttemptEnv) : Bool :=
  match a.quote with
  | none => true
  | some q =>
    if q.priceImpactPct * 100 > (maxImpactBps : ℚ) then false
    else
      match a.swapTx with
      | none => true
      | some _ =>
        ((execute_with_reconcile tolerance_pct "intent" pair side expected_delta
          a.reconcile).1).outcome.is_safe_to_retry

/-- A reconcile environment that is never reached (quote already failed). -/
def dummyReconcileEnv : ReconcileEnv :=
  { preTok := none, preUsdc := none,
    exec := { deserializeOk := false, signOk := false, send := .noValue,
              pollBudget := 0, polls := fun _ => none },
    postTok := none, postUsdc := none }

/-- Environment in which every quote request fails: each ladder attempt is a
definite quote failure. -/
def allQuoteFailEnv : ℕ → AttemptEnv :=
  fun _ => { quote := none, swapTx := none, reconcile := dummyReconcileEnv }

/-- Environment of one submission whose confirmation times out (every poll
returns `None`) and whose post-trade token balance fetch then fails
(`get_token_balance` returned `None`). -/
def timeoutNoPostBalanceEnv : ReconcileEnv :=
  { preTok := some 0, preUsdc := some 20,
    exec := { deserializeOk := true, signOk := true, send := .gotSig "SigTimeout11111",
              pollBudget := 5, polls := fun _ => none },
    postTok := none, postUsdc := some 20 }

/-- Ladder environment where every attempt submits, times out and cannot be
reconciled for lack of a post-balance snapshot. -/
def timeoutNoPostLadderEnv : ℕ → AttemptEnv :=
  fun _ => { quote := some { inAmount := 10000000, outAmount := 100000000 },
             swapTx := some (), reconcile := timeoutNoPostBalanceEnv }

/-- Environment of one submission that is confirmed on the second status
poll with no error. -/
def confirmedReconcileEnv : ReconcileEnv :=
  { preTok := some 0, preUsdc := some 20,
    exec := { deserializeOk := true, signOk := true, send := .gotSig "SigConfirmed1111",
              pollBudget := 5,
              polls := fun j => if j = 1 then some ⟨true, false, none⟩ else none },
    postTok := some (1/10), postUsdc := some 10 }

/-- Ladder environment whose first attempt confirms on chain. -/
def confirmedLadderEnv : ℕ → AttemptEnv :=
  fun _ => { quote := some { inAmount := 10000000, outAmount := 100000000 },
             swapTx := some (), reconcile := confirmedReconcileEnv }

/-- A signature-status oracle reporting `confirmed` with no error for every
signature (a late confirmation). -/
def lateConfirmOracle : String → Option SigStatus :=
  fun _ => some { confirmed := true, finalized := false, error := none }

/-- A fresh `PairState` for SOL/USDC (all defaults). -/
def freshSolPair : PairState := { pair := "SOL/USDC" }

/-- One exhausted-ladder BUY run (all four attempts are definite quote
failures) at `now = 1000`, as a state transformer. -/
def exhaustedBuyRun (s : PairState) : PairState :=
  (JupiterAdapter.execute_with_ladder {} (1/10) "SOL/USDC" "BUY" (1/10)
    allQuoteFailEnv 1000 s).state

/-- The BUY-side intent of test scenario S2: expected delta 0.1 SOL, token
balance 0 → 0.1, USDC balance 20 → 10. -/
def s2BuyIntent : InflightIntent :=
  { intent_id := "intent", signature := some "SigS2", pair := "SOL/USDC",
    side := "BUY", amount_in := 10000000, expected_delta := 1/10,
    pre_balance_token := some 0, pre_balance_usdc := some 20,
    post_balance_token := some (1/10), post_balance_usdc := some 10 }

/-- Embedding of `_execute_entry` environment whose transaction confirmation times out
(`TransactionExecutor.execute` returns `TIMEOUT`, the unknown outcome). -/
def timeoutEntryEnv : Engine.EntryEnv :=
  { dryRun := false,
    quote := some { inAmount := 10000000, outAmount := 100000000 },
    swapOk := true,
    execResult := { status := .TIMEOUT, signature := "SigEngineTimeout",
                    error := some "confirmation_timeout" } }

/-- A tick environment with one open JUP/USDC position carrying an exit
signal and one flat SOL/USDC pair carrying a LONG signal. -/
def exitThenEntryTickEnv : Engine.TickEnv :=
  { state := .RUNNING, solOk := true, pricesAllValid := true,
    price := fun _ => some 100,
    positions := ["JUP/USDC"],
    inflight := fun _ => false,
    exitReason := fun p _ => if p = "JUP/USDC" then some "take_profit" else none,
    canEnter := fun p => p = "SOL/USDC",
    signalLong := fun p => p = "SOL/USDC",
    pairs := ["SOL/USDC", "JUP/USDC"] }

/-- A pair state whose BUY consecutive-failure counter is one short of the
default threshold. -/
def threeFailuresPair : PairState :=
  { pair := "SOL/USDC", buy_consecutive_failures := 3 }

/-- A pair state carrying a preserved inflight BUY signature (as left by an
unresolved submission). -/
def inflightBuyPair : PairState :=
  { pair := "SOL/USDC", inflight_buy_signature := some "SigT" }

/-! ## Theorems -/

theorem pyAbs_eq_abs (q : ℚ) : pyAbs q = |q| := by
  unfold pyAbs
  rcases lt_or_ge q 0 with h | h
  · rw [if_pos h, abs_of_neg h]
  · rw [if_neg (not_lt.mpr h), abs_of_nonneg h]

/-- C4: for an `InflightIntent` whose pre- and post-balances are all
present, `matches_expected_deltas` holds iff the side's direction and
magnitude rules hold: for BUY, `token_delta > 0`,
`token_delta ≥ |expected| * (1 - tolerance)` and the USDC delta is
negative; for SELL, `token_delta < 0`,
`|token_delta| ≥ |expected| * (1 - tolerance)` and the USDC delta is
positive; the default tolerance is 0.10. -/
theorem matches_expected_deltas_direction_and_tolerance :
    defaultReconcileTolerancePct = 1/10 ∧
    ∀ (i : InflightIntent) (tol preT postT preU postU : ℚ),
      i.pre_balance_token = some preT → i.post_balance_token = some postT →
      i.pre_balance_usdc = some preU → i.post_balance_usdc = some postU →
      (i.side = "BUY" →
        (i.matches_expected_deltas tol = true ↔
          (postT - preT > 0 ∧ postT - preT ≥ |i.expected_delta| * (1 - tol) ∧
           postU - preU < 0))) ∧
      (i.side = "SELL" →
        (i.matches_expected_deltas tol = true ↔
          (postT - preT < 0 ∧ |postT - preT| ≥ |i.expected_delta| * (1 - tol) ∧
           postU - preU > 0))) := by
  refine ⟨rfl, ?_⟩
  intro i tol preT postT preU postU h1 h2 h3 h4
  have habs : |i.expected_delta| - |i.expected_delta| * tol
      = |i.expected_delta| * (1 - tol) := by ring
  constructor
  · intro hside
    have hne : (("BUY" : String) = "SELL") = False := eq_false (by decide)
    simp only [InflightIntent.matches_expected_deltas, InflightIntent.token_delta,
      InflightIntent.usdc_delta, h1, h2, h3, h4, hside, hne, if_false, pyAbs_eq_abs]
    norm_num [habs]
    tauto
  · intro hside
    have heq : (("SELL" : String) = "SELL") = True := eq_true rfl
    simp only [InflightIntent.matches_expected_deltas, InflightIntent.token_delta,
      InflightIntent.usdc_delta, h1, h2, h3, h4, hside, heq, if_true, pyAbs_eq_abs]
    norm_num [habs]
    tauto

/-- C4 witness: scenario S2's BUY intent (token 0 → 0.1, USDC 20 → 10,
expected delta 0.1) satisfies the BUY rule at the default tolerance. -/
theorem matches_expected_deltas_direction_and_tolerance_witness :
    s2BuyIntent.pre_balance_token = some 0 ∧
    (s2BuyIntent.matches_expected_deltas (1/10) = true ↔
      ((1:ℚ)/10 - 0 > 0 ∧ (1:ℚ)/10 - 0 ≥ |s2BuyIntent.expected_delta| * (1 - 1/10) ∧
       (10:ℚ) - 20 < 0)) :=
  ⟨rfl,
    (matches_expected_deltas_direction_and_tolerance.2 s2BuyIntent (1/10)
      0 (1/10) 20 10 rfl rfl rfl rfl).1 rfl⟩

/-- C3: when the confirmation times out and the post-trade token balance
cannot be fetched (`get_token_balance` returns `None`), the code does not
keep the outcome UNKNOWN: `matches_expected_deltas` is `False` on missing
deltas, so `execute_with_reconcile` records `reconciled_failure` and
downgrades to `FAILED_VERIFIED`; `execute_with_ladder` then treats the
attempt as safe to retry, clears the inflight signature, consumes the
attempt, and runs all remaining attempts. -/
theorem reconcile_missing_post_balances_downgrades_to_failure :
    ((execute_with_reconcile (1/10) "intent" "SOL/USDC" "BUY" (1/10)
        timeoutNoPostBalanceEnv).1.outcome = TxOutcome.failedVerified ∧
     (execute_with_reconcile (1/10) "intent" "SOL/USDC" "BUY" (1/10)
        timeoutNoPostBalanceEnv).2.outcome = some "reconciled_failure") ∧
    ((JupiterAdapter.execute_with_ladder {} (1/10) "SOL/USDC" "BUY" (1/10)
        timeoutNoPostLadderEnv 1000 freshSolPair).result.outcome = "FAILURE" ∧
     (JupiterAdapter.execute_with_ladder {} (1/10) "SOL/USDC" "BUY" (1/10)
        timeoutNoPostLadderEnv 1000 freshSolPair).attemptsExecuted = 4 ∧
     (JupiterAdapter.execute_with_ladder {} (1/10) "SOL/USDC" "BUY" (1/10)
        timeoutNoPostLadderEnv 1000 freshSolPair).state.inflight_buy_signature
        = none) := by
  decide

/-- C6 counterexample: a ladder run in which all four BUY attempts are
definite failures consumes all four attempts and returns FAILURE, yet
leaves `buy_consecutive_failures = 1` (not 4) and no BUY cooldown:
`record_buy_failure` runs once per exhausted ladder, not once per attempt. -/
theorem single_exhausted_run_no_cooldown :
    (JupiterAdapter.execute_with_ladder {} (1/10) "SOL/USDC" "BUY" (1/10)
        allQuoteFailEnv 1000 freshSolPair).attemptsConsumed = 4 ∧
    (JupiterAdapter.execute_with_ladder {} (1/10) "SOL/USDC" "BUY" (1/10)
        allQuoteFailEnv 1000 freshSolPair).result.outcome = "FAILURE" ∧
    ¬((JupiterAdapter.execute_with_ladder {} (1/10) "SOL/USDC" "BUY" (1/10)
        allQuoteFailEnv 1000 freshSolPair).state.buy_consecutive_failures = 4) ∧
    (JupiterAdapter.execute_with_ladder {} (1/10) "SOL/USDC" "BUY" (1/10)
        allQuoteFailEnv 1000 freshSolPair).state.buy_cooldown_until = none := by
  decide

/-- C6 (amended): `record_buy_failure` increments the consecutive-failure
counter by one; once the counter reaches the threshold it sets the BUY
cooldown to `now + cooldown_seconds` and resets the ladder attempt counter
(below the threshold it leaves the cooldown untouched).  The counter counts
exhausted ladder runs: four consecutive exhausted BUY ladders (at default
config, `now = 1000`) produce `buy_consecutive_failures = 4` and the
cooldown `1000 + 120`, while three do not. -/
theorem cooldown_after_threshold_exhausted_runs :
    (∀ (s : PairState) (thr : ℕ) (cd now : ℚ),
      thr ≤ s.buy_consecutive_failures + 1 →
      (s.record_buy_failure thr cd now).buy_consecutive_failures
          = s.buy_consecutive_failures + 1 ∧
      (s.record_buy_failure thr cd now).buy_cooldown_until = some (now + cd) ∧
      (s.record_buy_failure thr cd now).current_buy_attempt = 0) ∧
    (∀ (s : PairState) (thr : ℕ) (cd now : ℚ),
      s.buy_consecutive_failures + 1 < thr →
      (s.record_buy_failure thr cd now).buy_consecutive_failures
          = s.buy_consecutive_failures + 1 ∧
      (s.record_buy_failure thr cd now).buy_cooldown_until
          = s.buy_cooldown_until) ∧
    (((exhaustedBuyRun^[4]) freshSolPair).buy_consecutive_failures = 4 ∧
     ((exhaustedBuyRun^[4]) freshSolPair).buy_cooldown_until = some 1120 ∧
     ((exhaustedBuyRun^[4]) freshSolPair).current_buy_attempt = 0 ∧
     ((exhaustedBuyRun^[3]) freshSolPair).buy_cooldown_until = none) := by
  refine ⟨?_, ?_, by decide⟩
  · intro s thr cd now h
    simp only [PairState.record_buy_failure, ge_iff_le, if_pos h]
    exact ⟨trivial, trivial, trivial⟩
  · intro s thr cd now h
    simp only [PairState.record_buy_failure, ge_iff_le, if_neg (not_le.mpr h)]
    exact ⟨trivial, trivial⟩

/-- C6 witness: with the counter at 3, one more recorded failure at the
default threshold 4 sets the cooldown to `now + cooldown_seconds`. -/
theorem cooldown_after_threshold_exhausted_runs_witness :
    (4 ≤ threeFailuresPair.buy_consecutive_failures + 1) ∧
    (threeFailuresPair.record_buy_failure 4 120 1000).buy_cooldown_until
      = some (1000 + 120) :=
  ⟨by decide,
   (cooldown_after_threshold_exhausted_runs.1 threeFailuresPair 4 120 1000
     (by decide)).2.1⟩

/-- C7: for any pair whose position state is not FLAT (OPEN or EXIT_ONLY),
`can_exit` does not return a `(bool, reason)` pair at all: it evaluates the
nonexistent enum member `PositionState.ENTERING_INFLIGHT` and raises
`AttributeError`; only the FLAT early return survives. -/
theorem can_exit_raises_on_non_flat_state :
    JupiterAdapter.can_exit
        { pair := "SOL/USDC", position_state := .OPEN, entry_price := some 100,
          size_base := some (1/10) } 1000
      = .error (.attributeError "ENTERING_INFLIGHT") ∧
    JupiterAdapter.can_exit
        { pair := "SOL/USDC", position_state := .EXIT_ONLY } 1000
      = .error (.attributeError "ENTERING_INFLIGHT") ∧
    JupiterAdapter.can_exit freshSolPair 1000 = .ok (false, some "no_position") := by
  decide

/-- C8: resolving a late-confirmed entry marks the pair OPEN while leaving
`entry_price = None` and `size_base = None`: `resolve_unknown_entries` does
not populate the position from the actual token delta, so the
`OPEN ⇒ size_base > 0` invariant is broken. -/
theorem late_confirmed_entry_opens_without_size :
    (JupiterAdapter.resolve_unknown_entries_one lateConfirmOracle
        inflightBuyPair).1.position_state = PositionState.OPEN ∧
    (JupiterAdapter.resolve_unknown_entries_one lateConfirmOracle
        inflightBuyPair).1.size_base = none ∧
    (JupiterAdapter.resolve_unknown_entries_one lateConfirmOracle
        inflightBuyPair).1.entry_price = none ∧
    (JupiterAdapter.resolve_unknown_entries_one lateConfirmOracle
        inflightBuyPair).2 = some "SUCCESS" := by
  decide

/-- C10: the frozen dataclass `JupiterConfig` declares no `slippage_bps`
field, so the attribute read in `JupiterAdapter.__init__` and the
`get_quote` fallback for a missing slippage argument raise
`AttributeError` for every configuration value. -/
theorem jupiter_config_lacks_slippage_bps :
    (∀ c : JupiterConfig,
      jupiterAdapterInitSlippageRead c = .error (.attributeError "slippage_bps")) ∧
    (∀ c : JupiterConfig,
      get_quote_slippage c none = .error (.attributeError "slippage_bps")) :=
  ⟨fun _ => rfl, fun _ => rfl⟩

/-- C1 counterexample: in the v1-lite engine, `_execute_entry` clears the
pair's inflight flag in its `finally` block even when the executor returns
`TIMEOUT` (the unknown outcome), so the engine's inflight marker does not
remain set after an UNKNOWN attempt. -/
theorem engine_inflight_flag_cleared_on_timeout :
    (Engine.execute_entry timeoutEntryEnv { pair := "SOL/USDC" } 1000).success
        = false ∧
    (Engine.execute_entry timeoutEntryEnv { pair := "SOL/USDC" } 1000).tx_status
        = some "timeout" ∧
    (Engine.execute_entry timeoutEntryEnv { pair := "SOL/USDC" } 1000).state.inflight
        = false := by
  decide

/-- C1 (amended): in the adapter, a preserved inflight BUY signature blocks
every later entry for the pair: `can_enter` reports false whenever
`inflight_buy_signature` is set, a false `can_enter` makes `enter` return a
blocked FAILURE without running the ladder and without touching the state,
and a resolve pass clears the marker exactly when the signature settles
(confirmed/finalized or an error status).  (The engine's boolean inflight
flag gives no such protection - see the counterexample.) -/
theorem inflight_signature_blocks_new_entries :
    (∀ (m : Bool) (s : PairState) (now : ℚ) (sig : String),
      s.inflight_buy_signature = some sig →
      (JupiterAdapter.can_enter m s now).1 = false) ∧
    (∀ (cfg : JupiterConfig) (m : Bool) (pair : String) (price notional : ℚ)
       (env : ℕ → AttemptEnv) (tol now : ℚ) (s : PairState) (r : Option String),
      JupiterAdapter.can_enter m s now = (false, r) →
      JupiterAdapter.enter cfg m pair price notional env tol now s =
        .ok ({ outcome := "FAILURE", pair := pair, side := "BUY", error := r }, s)) ∧
    (∀ (oracle : String → Option SigStatus) (s : PairState) (sig : String)
       (st : SigStatus),
      s.inflight_buy_signature = some sig → sig ≠ "pending" →
      oracle sig = some st →
      ((st.confirmed || st.finalized) = true ∨ st.error.isSome = true) →
      (JupiterAdapter.resolve_unknown_entries_one oracle s).1.inflight_buy_signature
        = none) := by
  refine ⟨?_, ?_, ?_⟩
  · intro m s now sig h
    simp only [JupiterAdapter.can_enter, h]
    split_ifs <;> simp
  · intro cfg m pair price notional env tol now s r h
    simp only [JupiterAdapter.enter, h]
    rfl
  · intro oracle s sig st h1 h2 h3 h4
    simp only [JupiterAdapter.resolve_unknown_entries_one, h1, if_neg h2, h3]
    rcases h4 with h4 | h4
    · simp [h4]
    · rcases hcf : (st.confirmed || st.finalized) with _ | _
      · simp [hcf, h4]
      · simp [hcf]

/-- C1 witness: a pair with preserved inflight BUY signature "SigT" has
`can_enter = (false, inflight_buy:SigT)`, its `enter` call returns the
blocked FAILURE with the state unchanged, and a confirmed status poll
clears the marker. -/
theorem inflight_signature_blocks_new_entries_witness :
    (inflightBuyPair.inflight_buy_signature = some "SigT" ∧
      (JupiterAdapter.can_enter false inflightBuyPair 1000).1 = false) ∧
    (JupiterAdapter.can_enter false inflightBuyPair 1000
        = (false, some "inflight_buy:SigT") ∧
      JupiterAdapter.enter {} false "SOL/USDC" 100 10 allQuoteFailEnv (1/10) 1000
          inflightBuyPair =
        .ok ({ outcome := "FAILURE", pair := "SOL/USDC", side := "BUY",
               error := some "inflight_buy:SigT" }, inflightBuyPair)) ∧
    ((JupiterAdapter.resolve_unknown_entries_one lateConfirmOracle
        inflightBuyPair).1.inflight_buy_signature = none) :=
  ⟨⟨by decide,
    inflight_signature_blocks_new_entries.1 false inflightBuyPair 1000 "SigT"
      (by decide)⟩,
   ⟨by decide,
    inflight_signature_blocks_new_entries.2.1 {} false "SOL/USDC" 100 10
      allQuoteFailEnv (1/10) 1000 inflightBuyPair (some "inflight_buy:SigT")
      (by decide)⟩,
   inflight_signature_blocks_new_entries.2.2 lateConfirmOracle inflightBuyPair
     "SigT" { confirmed := true, finalized := false, error := none }
     (by decide) (by decide) rfl (Or.inl (by decide))⟩

theorem TxOutcome.success_not_retry (o : TxOutcome) (h : o.is_success = true) :
    o.is_safe_to_retry = false := by
  cases o <;> simp_all [TxOutcome.is_success, TxOutcome.is_safe_to_retry]

theorem ladder_loop_accounting (cfg : JupiterConfig) (tol : ℚ) (pair side : String)
    (exp : ℚ) (env : ℕ → AttemptEnv) (now : ℚ) :
    ∀ (fuel attempt : ℕ) (s : PairState),
      (JupiterAdapter.ladder_loop cfg tol pair side exp env now fuel attempt
        s).attemptsExecuted ≤ fuel ∧
      (JupiterAdapter.ladder_loop cfg tol pair side exp env now fuel attempt
        s).attemptsConsumed =
        (List.range' attempt
          (JupiterAdapter.ladder_loop cfg tol pair side exp env now fuel attempt
            s).attemptsExecuted).countP
          (fun i => attemptConsumes tol cfg.max_price_impact_bps pair side exp (env i)) ∧
      ((JupiterAdapter.ladder_loop cfg tol pair side exp env now fuel attempt
          s).attemptsConsumed =
        (JupiterAdapter.ladder_loop cfg tol pair side exp env now fuel attempt
          s).attemptsExecuted ∨
       (JupiterAdapter.ladder_loop cfg tol pair side exp env now fuel attempt
          s).attemptsConsumed + 1 =
        (JupiterAdapter.ladder_loop cfg tol pair side exp env now fuel attempt
          s).attemptsExecuted) := by
  intro fuel
  induction fuel with
  | zero =>
    intro attempt s
    simp [JupiterAdapter.ladder_loop]
  | succ fuel ih =>
    intro attempt s
    rcases hq : (env attempt).quote with _ | q
    · obtain ⟨ih1, ih2, ih3⟩ := ih (attempt + 1) s
      have hp : attemptConsumes tol cfg.max_price_impact_bps pair side exp
          (env attempt) = true := by
        simp [attemptConsumes, hq]
      simp only [JupiterAdapter.ladder_loop, hq]
      refine ⟨Nat.succ_le_succ ih1, ?_, ?_⟩
      · rw [List.range'_succ, List.countP_cons, hp, ih2]
        simp
      · omega
    · by_cases hI : q.priceImpactPct * 100 > (cfg.max_price_impact_bps : ℚ)
      · have hp : attemptConsumes tol cfg.max_price_impact_bps pair side exp
            (env attempt) = false := by
          simp [attemptConsumes, hq, if_pos hI]
        simp only [JupiterAdapter.ladder_loop, hq, if_pos hI]
        refine ⟨by omega, ?_, by right; simp⟩
        rw [List.range'_succ, List.countP_cons, hp]
        simp
      · rcases hS : (env attempt).swapTx with _ | u
        · obtain ⟨ih1, ih2, ih3⟩ := ih (attempt + 1) s
          have hp : attemptConsumes tol cfg.max_price_impact_bps pair side exp
              (env attempt) = true := by
            simp [attemptConsumes, hq, if_neg hI, hS]
          simp only [JupiterAdapter.ladder_loop, hq, if_neg hI, hS]
          refine ⟨Nat.succ_le_succ ih1, ?_, ?_⟩
          · rw [List.range'_succ, List.countP_cons, hp, ih2]
            simp
          · omega
        · have hretmk :
            ∀ o : TxOutcome,
              ((execute_with_reconcile tol "intent" pair side exp
                (env attempt).reconcile).1).outcome = o →
              o.is_safe_to_retry = false →
              attemptConsumes tol cfg.max_price_impact_bps pair side exp
                (env attempt) = false := by
            intro o hT ho
            simp [attemptConsumes, hq, if_neg hI, hS, hT, ho]
          have hconsmk :
            ∀ o : TxOutcome,
              ((execute_with_reconcile tol "intent" pair side exp
                (env attempt).reconcile).1).outcome = o →
              o.is_safe_to_retry = true →
              attemptConsumes tol cfg.max_price_impact_bps pair side exp
                (env attempt) = true := by
            intro o hT ho
            simp [attemptConsumes, hq, if_neg hI, hS, hT, ho]
          rcases hsig : ((execute_with_reconcile tol "intent" pair side exp
              (env attempt).reconcile).1).signature with _ | sig
          all_goals
            rcases hT : ((execute_with_reconcile tol "intent" pair side exp
                (env attempt).reconcile).1).outcome with
              _ | _ | _ | _ | _ | _ | _ | _
          all_goals
            simp only [JupiterAdapter.ladder_loop, hq, if_neg hI, hS, hsig, hT,
              TxOutcome.is_success, TxOutcome.is_safe_to_retry,
              eq_self_iff_true, if_true, Bool.false_eq_true, if_false]
          · refine ⟨by omega, ?_, by right; simp⟩
            rw [List.range'_succ, List.countP_cons, hretmk _ hT rfl]
            simp
          · refine ⟨by omega, ?_, by right; simp⟩
            rw [List.range'_succ, List.countP_cons, hretmk _ hT rfl]
            simp
          · simp only [(by decide :
                (TxOutcome.failedVerified = TxOutcome.landedUnconfirmed) = False),
              if_false, eq_self_iff_true, if_true]
            obtain ⟨ih1, ih2, ih3⟩ := ih (attempt + 1)
              (setInflightSig side none (setInflightSig side (some "pending") s))
            refine ⟨Nat.succ_le_succ ih1, ?_, by omega⟩
            rw [List.range'_succ, List.countP_cons, hconsmk _ hT rfl, ih2]
            simp
          · simp only [(by decide :
                (TxOutcome.timeoutUnknown = TxOutcome.landedUnconfirmed) = False),
              if_false, Bool.false_eq_true, eq_self_iff_true, if_true]
            refine ⟨by omega, ?_, by right; simp⟩
            rw [List.range'_succ, List.countP_cons, hretmk _ hT rfl]
            simp
          · refine ⟨by omega, ?_, by right; simp⟩
            rw [List.range'_succ, List.countP_cons, hretmk _ hT rfl]
            simp
          · simp only [(by decide :
                (TxOutcome.signFailed = TxOutcome.landedUnconfirmed) = False),
              if_false, eq_self_iff_true, if_true]
            obtain ⟨ih1, ih2, ih3⟩ := ih (attempt + 1)
              (setInflightSig side none (setInflightSig side (some "pending") s))
            refine ⟨Nat.succ_le_succ ih1, ?_, by omega⟩
            rw [List.range'_succ, List.countP_cons, hconsmk _ hT rfl, ih2]
            simp
          · simp only [(by decide :
                (TxOutcome.deserializeFailed = TxOutcome.landedUnconfirmed) = False),
              if_false, eq_self_iff_true, if_true]
            obtain ⟨ih1, ih2, ih3⟩ := ih (attempt + 1)
              (setInflightSig side none (setInflightSig side (some "pending") s))
            refine ⟨Nat.succ_le_succ ih1, ?_, by omega⟩
            rw [List.range'_succ, List.countP_cons, hconsmk _ hT rfl, ih2]
            simp
          · simp only [(by decide :
                (TxOutcome.sendFailed = TxOutcome.landedUnconfirmed) = False),
              if_false, eq_self_iff_true, if_true]
            obtain ⟨ih1, ih2, ih3⟩ := ih (attempt + 1)
              (setInflightSig side none (setInflightSig side (some "pending") s))
            refine ⟨Nat.succ_le_succ ih1, ?_, by omega⟩
            rw [List.range'_succ, List.countP_cons, hconsmk _ hT rfl, ih2]
            simp
          · refine ⟨by omega, ?_, by right; simp⟩
            rw [List.range'_succ, List.countP_cons, hretmk _ hT rfl]
            simp
          · refine ⟨by omega, ?_, by right; simp⟩
            rw [List.range'_succ, List.countP_cons, hretmk _ hT rfl]
            simp
          · simp only [(by decide :
                (TxOutcome.failedVerified = TxOutcome.landedUnconfirmed) = False),
              if_false, eq_self_iff_true, if_true]
            obtain ⟨ih1, ih2, ih3⟩ := ih (attempt + 1)
              (setInflightSig side none (setInflightSig side (some sig)
                (setInflightSig side (some "pending") s)))
            refine ⟨Nat.succ_le_succ ih1, ?_, by omega⟩
            rw [List.range'_succ, List.countP_cons, hconsmk _ hT rfl, ih2]
            simp
          · simp only [(by decide :
                (TxOutcome.timeoutUnknown = TxOutcome.landedUnconfirmed) = False),
              if_false, Bool.false_eq_true, eq_self_iff_true, if_true]
            refine ⟨by omega, ?_, by right; simp⟩
            rw [List.range'_succ, List.countP_cons, hretmk _ hT rfl]
            simp
          · refine ⟨by omega, ?_, by right; simp⟩
            rw [List.range'_succ, List.countP_cons, hretmk _ hT rfl]
            simp
          · simp only [(by decide :
                (TxOutcome.signFailed = TxOutcome.landedUnconfirmed) = False),
              if_false, eq_self_iff_true, if_true]
            obtain ⟨ih1, ih2, ih3⟩ := ih (attempt + 1)
              (setInflightSig side none (setInflightSig side (some sig)
                (setInflightSig side (some "pending") s)))
            refine ⟨Nat.succ_le_succ ih1, ?_, by omega⟩
            rw [List.range'_succ, List.countP_cons, hconsmk _ hT rfl, ih2]
            simp
          · simp only [(by decide :
                (TxOutcome.deserializeFailed = TxOutcome.landedUnconfirmed) = False),
              if_false, eq_self_iff_true, if_true]
            obtain ⟨ih1, ih2, ih3⟩ := ih (attempt + 1)
              (setInflightSig side none (setInflightSig side (some sig)
                (setInflightSig side (some "pending") s)))
            refine ⟨Nat.succ_le_succ ih1, ?_, by omega⟩
            rw [List.range'_succ, List.countP_cons, hconsmk _ hT rfl, ih2]
            simp
          · simp only [(by decide :
                (TxOutcome.sendFailed = TxOutcome.landedUnconfirmed) = False),
              if_false, eq_self_iff_true, if_true]
            obtain ⟨ih1, ih2, ih3⟩ := ih (attempt + 1)
              (setInflightSig side none (setInflightSig side (some sig)
                (setInflightSig side (some "pending") s)))
            refine ⟨Nat.succ_le_succ ih1, ?_, by omega⟩
            rw [List.range'_succ, List.countP_cons, hconsmk _ hT rfl, ih2]
            simp

/-- C5: an `execute_with_ladder` run executes at most `max_attempts`
attempts; the attempt counter advances exactly on the definite-failure
steps (quote failure, swap-build failure, or a verified transaction
failure, as captured by `attemptConsumes`), so the attempts consumed equal
the count of those definite failures among the executed attempts; at most
the final executed attempt is non-consuming (a price-impact abort, a
success, or an unresolved outcome ends the run immediately). -/
theorem ladder_attempt_accounting :
    ∀ (cfg : JupiterConfig) (tol : ℚ) (pair side : String) (exp : ℚ)
      (env : ℕ → AttemptEnv) (now : ℚ) (s : PairState),
      (JupiterAdapter.execute_with_ladder cfg tol pair side exp env now
        s).attemptsExecuted ≤ cfg.max_attempts ∧
      (JupiterAdapter.execute_with_ladder cfg tol pair side exp env now
        s).attemptsConsumed =
        (List.range' 1
          (JupiterAdapter.execute_with_ladder cfg tol pair side exp env now
            s).attemptsExecuted).countP
          (fun i => attemptConsumes tol cfg.max_price_impact_bps pair side exp (env i)) ∧
      ((JupiterAdapter.execute_with_ladder cfg tol pair side exp env now
          s).attemptsConsumed =
        (JupiterAdapter.execute_with_ladder cfg tol pair side exp env now
          s).attemptsExecuted ∨
       (JupiterAdapter.execute_with_ladder cfg tol pair side exp env now
          s).attemptsConsumed + 1 =
        (JupiterAdapter.execute_with_ladder cfg tol pair side exp env now
          s).attemptsExecuted) := by
  intro cfg tol pair side exp env now s
  exact ladder_loop_accounting cfg tol pair side exp env now cfg.max_attempts 1 s

theorem wait_for_confirmation_positive :
    ∀ (budget idx : ℕ) (sig : String) (polls : ℕ → Option SigStatus),
      ((wait_for_confirmation sig polls budget idx).outcome = .confirmed ∨
       (wait_for_confirmation sig polls budget idx).outcome = .finalized) →
      ∃ j st, idx ≤ j ∧ j < idx + budget ∧ polls j = some st ∧ st.error = none ∧
        (st.finalized = true ∨ st.confirmed = true) := by
  intro budget
  induction budget with
  | zero =>
    intro idx sig polls h
    rcases h with h | h <;> exact absurd h (by simp [wait_for_confirmation])
  | succ budget ih =>
    intro idx sig polls h
    rcases hp : polls idx with _ | st
    · simp only [wait_for_confirmation, hp] at h
      obtain ⟨j, st, h1, h2, h3, h4, h5⟩ := ih (idx + 1) sig polls h
      exact ⟨j, st, by omega, by omega, h3, h4, h5⟩
    · rcases he : st.error with _ | msg
      · rcases hfin : st.finalized with _ | _
        · rcases hconf : st.confirmed with _ | _
          · simp only [wait_for_confirmation, hp, he, hfin, hconf,
              Bool.false_eq_true, if_false] at h
            obtain ⟨j, st', h1, h2, h3, h4, h5⟩ := ih (idx + 1) sig polls h
            exact ⟨j, st', by omega, by omega, h3, h4, h5⟩
          · exact ⟨idx, st, le_refl _, by omega, hp, he, Or.inr hconf⟩
        · exact ⟨idx, st, le_refl _, by omega, hp, he, Or.inl hfin⟩
      · simp only [wait_for_confirmation, hp, he] at h
        rcases h with h | h <;> exact absurd h (by decide)

theorem wait_for_confirmation_no_landed :
    ∀ (budget idx : ℕ) (sig : String) (polls : ℕ → Option SigStatus),
      (wait_for_confirmation sig polls budget idx).outcome ≠ .landedUnconfirmed := by
  intro budget
  induction budget with
  | zero =>
    intro idx sig polls
    simp [wait_for_confirmation]
  | succ budget ih =>
    intro idx sig polls
    rcases hp : polls idx with _ | st
    · simp only [wait_for_confirmation, hp]
      exact ih (idx + 1) sig polls
    · rcases he : st.error with _ | msg
      · rcases hfin : st.finalized with _ | _
        · rcases hconf : st.confirmed with _ | _
          · simp only [wait_for_confirmation, hp, he, hfin, hconf,
              Bool.false_eq_true, if_false]
            exact ih (idx + 1) sig polls
          · simp [wait_for_confirmation, hp, he, hfin, hconf]
        · simp [wait_for_confirmation, hp, he, hfin]
      · simp [wait_for_confirmation, hp, he]

theorem execute_positive (e : ExecEnv)
    (h : (SolanaClient.execute e).outcome = .confirmed ∨
         (SolanaClient.execute e).outcome = .finalized) :
    positiveConfirmation e := by
  rcases hd : e.deserializeOk with _ | _
  · simp [SolanaClient.execute, hd] at h
  · rcases hs : e.signOk with _ | _
    · simp [SolanaClient.execute, hd, hs] at h
    · rcases hsend : e.send with sig | _ | msg
      · simp only [SolanaClient.execute, hd, hs, hsend, Bool.not_true,
          Bool.false_eq_true, not_false_iff, if_true, if_false, not_true,
          eq_self_iff_true] at h
        obtain ⟨j, st, _, h2, h3, h4, h5⟩ :=
          wait_for_confirmation_positive e.pollBudget 0 sig e.polls h
        exact ⟨j, st, by omega, h3, h4, h5⟩
      · simp [SolanaClient.execute, hd, hs, hsend] at h
      · simp [SolanaClient.execute, hd, hs, hsend] at h

theorem execute_no_landed (e : ExecEnv) :
    (SolanaClient.execute e).outcome ≠ .landedUnconfirmed := by
  rcases hd : e.deserializeOk with _ | _
  · simp [SolanaClient.execute, hd]
  · rcases hs : e.signOk with _ | _
    · simp [SolanaClient.execute, hd, hs]
    · rcases hsend : e.send with sig | _ | msg
      · simp only [SolanaClient.execute, hd, hs, hsend, Bool.not_true,
          Bool.false_eq_true, not_false_iff, if_true, if_false, not_true,
          eq_self_iff_true]
        exact wait_for_confirmation_no_landed e.pollBudget 0 sig e.polls
      · simp [SolanaClient.execute, hd, hs, hsend]
      · simp [SolanaClient.execute, hd, hs, hsend]

theorem ewr_success_positive (tol : ℚ) (intent_id pair side : String) (exp : ℚ)
    (renv : ReconcileEnv)
    (h : ((execute_with_reconcile tol intent_id pair side exp
      renv).1).outcome.is_success = true) :
    positiveConfirmation renv.exec := by
  rcases hsig : (SolanaClient.execute renv.exec).signature with _ | sg <;>
    rcases hout : (SolanaClient.execute renv.exec).outcome with
      _ | _ | _ | _ | _ | _ | _ | _
  case' none.confirmed | some.confirmed =>
    exact execute_positive renv.exec (Or.inl hout)
  case' none.finalized | some.finalized =>
    exact execute_positive renv.exec (Or.inr hout)
  case' none.landedUnconfirmed | some.landedUnconfirmed =>
    exact absurd hout (execute_no_landed renv.exec)
  all_goals
    simp only [execute_with_reconcile, hsig, hout, TxOutcome.is_success,
      TxOutcome.is_safe_to_retry, eq_self_iff_true, if_true,
      Bool.false_eq_true, if_false] at h
  case some.timeoutUnknown =>
    rcases hm : InflightIntent.matches_expected_deltas
        ⟨intent_id, some sg, pair, side, 0, exp, renv.preTok, renv.preUsdc,
         renv.postTok, renv.postUsdc, none⟩ tol with _ | _
    · simp only [hm, Bool.false_eq_true, if_false] at h
    · simp only [hm, eq_self_iff_true, if_true] at h
      simp [TxOutcome.is_success] at h

theorem ewr_landed_matches (tol : ℚ) (intent_id pair side : String) (exp : ℚ)
    (renv : ReconcileEnv)
    (h : ((execute_with_reconcile tol intent_id pair side exp
      renv).1).outcome = TxOutcome.landedUnconfirmed) :
    ((execute_with_reconcile tol intent_id pair side exp
      renv).2).matches_expected_deltas tol = true := by
  rcases hsig : (SolanaClient.execute renv.exec).signature with _ | sg <;>
    rcases hout : (SolanaClient.execute renv.exec).outcome with
      _ | _ | _ | _ | _ | _ | _ | _
  case' none.landedUnconfirmed | some.landedUnconfirmed =>
    exact absurd hout (execute_no_landed renv.exec)
  all_goals
    simp only [execute_with_reconcile, hsig, hout, TxOutcome.is_success,
      TxOutcome.is_safe_to_retry, eq_self_iff_true, if_true,
      Bool.false_eq_true, if_false] at h ⊢
  all_goals try exact absurd h (by decide)
  case some.timeoutUnknown =>
    rcases hm : InflightIntent.matches_expected_deltas
        ⟨intent_id, some sg, pair, side, 0, exp, renv.preTok, renv.preUsdc,
         renv.postTok, renv.postUsdc, none⟩ tol with _ | _
    · simp only [hm, Bool.false_eq_true, if_false] at h
      exact absurd h (by decide)
    · simp only [hm, eq_self_iff_true, if_true] at h ⊢
      simpa [InflightIntent.matches_expected_deltas, InflightIntent.token_delta,
        InflightIntent.usdc_delta] using hm

theorem ladder_loop_success_source (cfg : JupiterConfig) (tol : ℚ)
    (pair side : String) (exp : ℚ) (env : ℕ → AttemptEnv) (now : ℚ) :
    ∀ (fuel attempt : ℕ) (s : PairState),
      (JupiterAdapter.ladder_loop cfg tol pair side exp env now fuel attempt
        s).result.outcome = "SUCCESS" →
      ∃ k, attempt ≤ k ∧ k < attempt + fuel ∧
        (positiveConfirmation (env k).reconcile.exec ∨
         ((execute_with_reconcile tol "intent" pair side exp
            (env k).reconcile).2).matches_expected_deltas tol = true) := by
  intro fuel
  induction fuel with
  | zero =>
    intro attempt s h
    exact absurd h (by simp [JupiterAdapter.ladder_loop])
  | succ fuel ih =>
    intro attempt s h
    rcases hq : (env attempt).quote with _ | q
    · simp only [JupiterAdapter.ladder_loop, hq] at h
      obtain ⟨k, h1, h2, h3⟩ := ih (attempt + 1) _ h
      exact ⟨k, by omega, by omega, h3⟩
    · by_cases hI : q.priceImpactPct * 100 > (cfg.max_price_impact_bps : ℚ)
      · simp only [JupiterAdapter.ladder_loop, hq, if_pos hI] at h
        exact absurd h (by decide)
      · rcases hS : (env attempt).swapTx with _ | u
        · simp only [JupiterAdapter.ladder_loop, hq, if_neg hI, hS] at h
          obtain ⟨k, h1, h2, h3⟩ := ih (attempt + 1) _ h
          exact ⟨k, by omega, by omega, h3⟩
        · rcases hsig : ((execute_with_reconcile tol "intent" pair side exp
              (env attempt).reconcile).1).signature with _ | sig
          all_goals
            rcases hT : ((execute_with_reconcile tol "intent" pair side exp
                (env attempt).reconcile).1).outcome with
              _ | _ | _ | _ | _ | _ | _ | _
          all_goals
            simp only [JupiterAdapter.ladder_loop, hq, if_neg hI, hS, hsig, hT,
              TxOutcome.is_success, TxOutcome.is_safe_to_retry,
              eq_self_iff_true, if_true, Bool.false_eq_true, if_false] at h
          · exact ⟨attempt, le_refl _, by omega,
              Or.inl (ewr_success_positive tol "intent" pair side exp
                (env attempt).reconcile (by simp [hT, TxOutcome.is_success]))⟩
          · exact ⟨attempt, le_refl _, by omega,
              Or.inl (ewr_success_positive tol "intent" pair side exp
                (env attempt).reconcile (by simp [hT, TxOutcome.is_success]))⟩
          · simp only [(by decide :
                (TxOutcome.failedVerified = TxOutcome.landedUnconfirmed) = False),
              if_false, eq_self_iff_true, if_true] at h
            obtain ⟨k, h1, h2, h3⟩ := ih (attempt + 1) _ h
            exact ⟨k, by omega, by omega, h3⟩
          · simp only [(by decide :
                (TxOutcome.timeoutUnknown = TxOutcome.landedUnconfirmed) = False),
              if_false, Bool.false_eq_true, eq_self_iff_true, if_true] at h
            exact absurd h (by decide)
          · exact ⟨attempt, le_refl _, by omega,
              Or.inr (ewr_landed_matches tol "intent" pair side exp
                (env attempt).reconcile hT)⟩
          · simp only [(by decide :
                (TxOutcome.signFailed = TxOutcome.landedUnconfirmed) = False),
              if_false, eq_self_iff_true, if_true] at h
            obtain ⟨k, h1, h2, h3⟩ := ih (attempt + 1) _ h
            exact ⟨k, by omega, by omega, h3⟩
          · simp only [(by decide :
                (TxOutcome.deserializeFailed = TxOutcome.landedUnconfirmed) = False),
              if_false, eq_self_iff_true, if_true] at h
            obtain ⟨k, h1, h2, h3⟩ := ih (attempt + 1) _ h
            exact ⟨k, by omega, by omega, h3⟩
          · simp only [(by decide :
                (TxOutcome.sendFailed = TxOutcome.landedUnconfirmed) = False),
              if_false, eq_self_iff_true, if_true] at h
            obtain ⟨k, h1, h2, h3⟩ := ih (attempt + 1) _ h
            exact ⟨k, by omega, by omega, h3⟩
          · exact ⟨attempt, le_refl _, by omega,
              Or.inl (ewr_success_positive tol "intent" pair side exp
                (env attempt).reconcile (by simp [hT, TxOutcome.is_success]))⟩
          · exact ⟨attempt, le_refl _, by omega,
              Or.inl (ewr_success_positive tol "intent" pair side exp
                (env attempt).reconcile (by simp [hT, TxOutcome.is_success]))⟩
          · simp only [(by decide :
                (TxOutcome.failedVerified = TxOutcome.landedUnconfirmed) = False),
              if_false, eq_self_iff_true, if_true] at h
            obtain ⟨k, h1, h2, h3⟩ := ih (attempt + 1) _ h
            exact ⟨k, by omega, by omega, h3⟩
          · simp only [(by decide :
                (TxOutcome.timeoutUnknown = TxOutcome.landedUnconfirmed) = False),
              if_false, Bool.false_eq_true, eq_self_iff_true, if_true] at h
            exact absurd h (by decide)
          · exact ⟨attempt, le_refl _, by omega,
              Or.inr (ewr_landed_matches tol "intent" pair side exp
                (env attempt).reconcile hT)⟩
          · simp only [(by decide :
                (TxOutcome.signFailed = TxOutcome.landedUnconfirmed) = False),
              if_false, eq_self_iff_true, if_true] at h
            obtain ⟨k, h1, h2, h3⟩ := ih (attempt + 1) _ h
            exact ⟨k, by omega, by omega, h3⟩
          · simp only [(by decide :
                (TxOutcome.deserializeFailed = TxOutcome.landedUnconfirmed) = False),
              if_false, eq_self_iff_true, if_true] at h
            obtain ⟨k, h1, h2, h3⟩ := ih (attempt + 1) _ h
            exact ⟨k, by omega, by omega, h3⟩
          · simp only [(by decide :
                (TxOutcome.sendFailed = TxOutcome.landedUnconfirmed) = False),
              if_false, eq_self_iff_true, if_true] at h
            obtain ⟨k, h1, h2, h3⟩ := ih (attempt + 1) _ h
            exact ⟨k, by omega, by omega, h3⟩

/-- C2: if an `execute_with_ladder` run reports outcome SUCCESS, then on
some executed attempt either a signature-status poll inside the
confirmation window reported `confirmed` or `finalized` with no error
(`positiveConfirmation`), or the balance reconciliation of that attempt's
intent found post-minus-pre deltas matching the expected trade
(`matches_expected_deltas`); no other path produces SUCCESS. -/
theorem ladder_success_requires_confirmation_or_reconcile :
    ∀ (cfg : JupiterConfig) (tol : ℚ) (pair side : String) (exp : ℚ)
      (env : ℕ → AttemptEnv) (now : ℚ) (s : PairState),
      (JupiterAdapter.execute_with_ladder cfg tol pair side exp env now
        s).result.outcome = "SUCCESS" →
      ∃ k, 1 ≤ k ∧ k ≤ cfg.max_attempts ∧
        (positiveConfirmation (env k).reconcile.exec ∨
         ((execute_with_reconcile tol "intent" pair side exp
            (env k).reconcile).2).matches_expected_deltas tol = true) := by
  intro cfg tol pair side exp env now s h
  obtain ⟨k, h1, h2, h3⟩ :=
    ladder_loop_success_source cfg tol pair side exp env now
      cfg.max_attempts 1 s h
  exact ⟨k, h1, by omega, h3⟩

/-- C2 witness: a run whose first attempt confirms on the second status
poll reports SUCCESS, and the theorem locates the confirming attempt. -/
theorem ladder_success_requires_confirmation_or_reconcile_witness :
    (JupiterAdapter.execute_with_ladder {} (1/10) "SOL/USDC" "BUY" (1/10)
        confirmedLadderEnv 1000 freshSolPair).result.outcome = "SUCCESS" ∧
    (∃ k, 1 ≤ k ∧ k ≤ ({} : JupiterConfig).max_attempts ∧
      (positiveConfirmation (confirmedLadderEnv k).reconcile.exec ∨
       ((execute_with_reconcile (1/10) "intent" "SOL/USDC" "BUY" (1/10)
          (confirmedLadderEnv k).reconcile).2).matches_expected_deltas (1/10)
          = true)) :=
  ⟨by decide,
   ladder_success_requires_confirmation_or_reconcile {} (1/10) "SOL/USDC" "BUY"
     (1/10) confirmedLadderEnv 1000 freshSolPair (by decide)⟩

theorem TradeAction.isExit_not_isEntry (a : Engine.TradeAction)
    (h : a.isEntry = true) : a.isExit = false := by
  cases a <;> simp_all [Engine.TradeAction.isExit, Engine.TradeAction.isEntry]

theorem TradeAction.isEntry_not_isExit (a : Engine.TradeAction)
    (h : a.isExit = true) : a.isEntry = false := by
  cases a <;> simp_all [Engine.TradeAction.isExit, Engine.TradeAction.isEntry]

/-- C9: in every tick, each dispatched exit trade comes strictly before
each dispatched entry trade in the dispatch order (position `i` carrying an
exit precedes position `j` carrying an entry). -/
theorem tick_dispatches_exits_before_entries :
    ∀ (env : Engine.TickEnv) (i j : ℕ),
      ((Engine.tick env).getD i (Engine.TradeAction.entryTrade "")).isExit
        = true →
      ((Engine.tick env).getD j (Engine.TradeAction.exitTrade "")).isEntry
        = true →
      i < j := by
  intro env i j hi hj
  unfold Engine.tick at hi hj
  by_cases h1 : env.state ≠ Engine.EngineState.RUNNING
  · rw [if_pos h1] at hi
    simp [Engine.TradeAction.isExit] at hi
  rw [if_neg h1] at hi hj
  by_cases h2 : ¬env.solOk
  · rw [if_pos h2] at hi
    simp [Engine.TradeAction.isExit] at hi
  rw [if_neg h2] at hi hj
  by_cases h3 : ¬env.pricesAllValid
  · rw [if_pos h3] at hi
    simp [Engine.TradeAction.isExit] at hi
  rw [if_neg h3] at hi hj
  set exits := env.positions.filterMap fun p =>
    if env.inflight p then none
    else
      match env.price p with
      | none => none
      | some pr =>
        match env.exitReason p pr with
        | none => none
        | some _ => some (Engine.TradeAction.exitTrade p) with hexits
  set entries := env.pairs.filterMap fun p =>
    if env.inflight p then none
    else if ¬env.canEnter p then none
    else
      match env.price p with
      | none => none
      | some _ =>
        if env.signalLong p then some (Engine.TradeAction.entryTrade p) else none
    with hentries
  have hex : ∀ a ∈ exits, a.isExit = true := by
    intro a ha
    rw [hexits, List.mem_filterMap] at ha
    obtain ⟨p, _, hfa⟩ := ha
    repeat' split at hfa
    all_goals first
      | exact Option.noConfusion hfa
      | (injection hfa with h; subst h; rfl)
  have hen : ∀ a ∈ entries, a.isEntry = true := by
    intro a ha
    rw [hentries, List.mem_filterMap] at ha
    obtain ⟨p, _, hfa⟩ := ha
    repeat' split at hfa
    all_goals first
      | exact Option.noConfusion hfa
      | (injection hfa with h; subst h; rfl)
  rw [List.getD_eq_getElem?_getD] at hi hj
  have hi' : i < exits.length := by
    by_contra hge
    push_neg at hge
    rw [List.getElem?_append_right hge] at hi
    rcases he : entries[i - exits.length]? with _ | a
    · rw [he] at hi
      simp [Engine.TradeAction.isExit] at hi
    · rw [he] at hi
      simp only [Option.getD_some] at hi
      have := TradeAction.isExit_not_isEntry a (hen a (List.getElem?_mem he))
      rw [this] at hi
      exact absurd hi (by decide)
  have hj' : exits.length ≤ j := by
    by_contra hlt
    push_neg at hlt
    rw [List.getElem?_append_left hlt] at hj
    rcases he : exits[j]? with _ | a
    · rw [he] at hj
      simp [Engine.TradeAction.isEntry] at hj
    · rw [he] at hj
      simp only [Option.getD_some] at hj
      have := TradeAction.isEntry_not_isExit a (hex a (List.getElem?_mem he))
      rw [this] at hj
      exact absurd hj (by decide)
  omega

/-- C9 witness: a tick with an open JUP/USDC position carrying an exit
signal and a flat SOL/USDC pair carrying an entry signal dispatches the
exit (position 0) before the entry (position 1). -/
theorem tick_dispatches_exits_before_entries_witness :
    ((Engine.tick exitThenEntryTickEnv).getD 0
        (Engine.TradeAction.entryTrade "")).isExit = true ∧
    ((Engine.tick exitThenEntryTickEnv).getD 1
        (Engine.TradeAction.exitTrade "")).isEntry = true ∧
    (0 : ℕ) < 1 :=
  ⟨by decide, by decide,
   tick_dispatches_exits_before_entries exitThenEntryTickEnv 0 1
     (by decide) (by decide)⟩
